import Mathlib

/-!
Shallow embedding of the Mailcow.js API client (`src/Client.js`).

The client is a thin wrapper mapping method calls to HTTP requests against a
mailcow admin API, with a retry-on-5xx wrapper (`request` / `retryRequest`),
a hostname-pattern validation and a WHOIS registration gate in front of the
create operations, and client-side defaulting of unset record fields.

External effects are made explicit:
* the HTTP transport is a function `Nat → Outcome` giving the outcome of the
  n-th axios invocation, and each embedded operation returns the list of
  request descriptors (or events) it emitted alongside its result;
* the WHOIS lookup outcome is passed in as a `WhoisResult` value;
* thrown JS errors become `Except JSError` results;
* the caller-supplied record mutated in place by `addMailbox` / `addDomain`
  lives in an explicit heap (a list indexed by a reference), and the request
  body holds the reference, mirroring the aliasing in the source.
-/

deriving instance DecidableEq for Except

namespace Mailcow

/-- A JS field value as used in the loosely-typed resource records
(numbers, booleans, strings, string arrays such as `tags`). -/
inductive JVal where
  | num (n : Int)
  | bool (b : Bool)
  | str (s : String)
  | arr (xs : List String)
deriving DecidableEq

/-- JS truthiness for `JVal` (arrays are always truthy, `0`, `false` and the
empty string are falsy). -/
def truthy : JVal → Bool
  | .num n => n != 0
  | .bool b => b
  | .str s => !s.isEmpty
  | .arr _ => true

/-- An axios error: `response` is the HTTP status when the server responded,
`none` for a network-level failure. -/
structure AxiosError where
  response : Option Nat
  message : String
deriving DecidableEq

/-- Errors thrown by the embedded code. -/
inductive JSError where
  | error (msg : String)
  | typeError (msg : String)
  | whoisError (msg : String)
  | axios (e : AxiosError)
deriving DecidableEq

/-- The outcome of one axios invocation. -/
inductive Outcome where
  | success (body : String)
  | failure (e : AxiosError)
deriving DecidableEq

/-- `error.response && error.response.status >= 500` from `request`. -/
def is5xx (e : AxiosError) : Bool :=
  match e.response with
  | some s => decide (500 ≤ s)
  | none => false

/-- The transport produced a response with status ≥ 500 at this attempt. -/
def failed5xx : Outcome → Bool
  | .success _ => false
  | .failure e => is5xx e

/-- The fixed header set built by the constructor. -/
structure Headers where
  xApiKey : String
  contentType : String
deriving DecidableEq

/-- A request body: bulk-delete `{items: [...]}` lists, a reference to a
mailbox/domain record on the heap (the source passes the caller's object
itself), or an opaque value (alias / sync job / forwarding host payloads). -/
inductive ReqBody where
  | items (xs : List String)
  | mailboxRef (r : Nat)
  | domainRef (r : Nat)
  | value (v : JVal)
deriving DecidableEq

/-- The request descriptor handed to axios. -/
structure Config where
  url : String
  method : String
  headers : Headers
  data : Option ReqBody
deriving DecidableEq

/-- An externally observable action of an operation. -/
inductive Event where
  | whoisLookup (domain : String)
  | http (cfg : Config)
deriving DecidableEq

/-- The `for (let i = 0; i < retries; i++)` loop of `retryRequest`: `i` is the
current attempt index into the transport, the last argument is the number of
iterations left (`retries - i`).  On success the body is returned; on failure
at the last iteration (`i === retries - 1`, i.e. one iteration left) the error
is thrown, otherwise the loop continues.  If the loop runs out (`retries = 0`)
the JS function returns `undefined`, modelled as `.ok none`. -/
def retryLoop (cfg : Config) (t : Nat → Outcome) (i : Nat) :
    Nat → List Config × Except JSError (Option String)
  | 0 => ([], .ok none)
  | fuel + 1 =>
    match t i with
    | .success b => ([cfg], .ok (some b))
    | .failure e =>
      if fuel = 0 then ([cfg], .error (.axios e))
      else
        let rest := retryLoop cfg t (i + 1) fuel
        (cfg :: rest.1, rest.2)

/-- `retryRequest(config, retries)` — the trace of descriptors sent and the
result.  The source's default for `retries` is `3`. -/
def retryRequest (cfg : Config) (t : Nat → Outcome) (retries : Nat) :
    List Config × Except JSError (Option String) :=
  retryLoop cfg t 0 retries

/-- `request(config)`: one axios attempt; on an error that carries a response
with status ≥ 500 it delegates to `retryRequest(config)` (default bound 3, on
the attempts that follow); any other error is rethrown. -/
def request (cfg : Config) (t : Nat → Outcome) :
    List Config × Except JSError (Option String) :=
  match t 0 with
  | .success b => ([cfg], .ok (some b))
  | .failure e =>
    if is5xx e then
      let rest := retryRequest cfg (fun i => t (i + 1)) 3
      (cfg :: rest.1, rest.2)
    else ([cfg], .error (.axios e))

/-- The character class `[A-Z-a-z0-9]` of the hostname pattern: the ranges
`A-Z`, `a-z`, `0-9` and (as the regex is written) the literal hyphen. -/
def hostChar (c : Char) : Bool :=
  decide ((('A' ≤ c ∧ c ≤ 'Z') ∨ c = '-' ∨ ('a' ≤ c ∧ c ≤ 'z') ∨ ('0' ≤ c ∧ c ≤ '9')))

/-- `str.match(/[A-Z-a-z0-9]+\.[A-Z-a-z0-9]+$/)` is non-null: the string ends
with a nonempty run of class characters, preceded by a dot, preceded by at
least one class character. -/
def domainMatch (s : String) : Bool :=
  let rev := s.data.reverse
  match rev.dropWhile hostChar with
  | '.' :: c :: _ => !(rev.takeWhile hostChar).isEmpty && hostChar c
  | _ => false

example : domainMatch "example.org" = true := by decide
example : domainMatch "sub.example-host.org" = true := by decide
example : domainMatch "bad" = false := by decide
example : domainMatch "bad." = false := by decide
example : domainMatch ".org" = false := by decide
example : domainMatch "" = false := by decide

/-- The literal registry disclaimer `checkAvailable` compares against. -/
def pirDisclaimer : String :=
  "URL of the ICANN Whois Inaccuracy Complaint Form https://www.icann.org/wicf/"

/-- The outcome of the `whoiser.domain(url)` lookup: the promise rejected, or
it resolved to an object whose `whois.pir.org` entry is absent (`none`) or
carries the given `text` array. -/
inductive WhoisResult where
  | failure (msg : String)
  | response (pirText : Option (List String))
deriving DecidableEq

/-- `checkAvailable(url)`: throws on an empty domain name before any lookup;
otherwise performs the lookup and compares `whois.pir.org`'s `text[0]` with
the fixed disclaimer.  A rejected lookup propagates; a resolved object with no
`whois.pir.org` entry raises a `TypeError` on the `.text` access.  The first
component is the list of lookup events performed. -/
def checkAvailable (url : String) (w : WhoisResult) :
    List Event × Except JSError Bool :=
  if url.isEmpty then ([], .error (.error "No domain name provided"))
  else
    ([.whoisLookup url],
      match w with
      | .failure msg => .error (.whoisError msg)
      | .response none => .error (.typeError "undefined has no property text")
      | .response (some ts) => .ok (ts.head? == some pirDisclaimer))

/-- The lookup resolved with a `whois.pir.org` entry whose first text line is
the expected disclaimer — exactly the case in which `checkAvailable`
returns `true`. -/
def whoisOk : WhoisResult → Bool
  | .response (some ts) => ts.head? == some pirDisclaimer
  | _ => false

/-- The fields of a mailbox record touched by `addMailbox` (an unset field is
`none`; all other caller fields pass through the function untouched). -/
structure MailboxDetails where
  domain : String
  active : Option JVal
  quota : Option JVal
  force_pw_update : Option JVal
  tls_enforce_in : Option JVal
  tls_enforce_out : Option JVal
  tags : Option JVal
deriving DecidableEq

/-- The field assignments of `addMailbox` (lines 177–182): each listed field
is replaced by the vendor default when `typeof` it is `undefined`, while
`tags` uses `tags || []`, replacing any falsy value. -/
def applyMailboxDefaults (m : MailboxDetails) : MailboxDetails :=
  { m with
    active := some (m.active.getD (.num 1))
    quota := some (m.quota.getD (.num 3072))
    force_pw_update := some (m.force_pw_update.getD (.num 1))
    tls_enforce_in := some (m.tls_enforce_in.getD (.num 1))
    tls_enforce_out := some (m.tls_enforce_out.getD (.num 1))
    tags := some (match m.tags with
      | some v => if truthy v then v else .arr []
      | none => .arr []) }

/-- The fields of a domain record touched by `addDomain`. -/
structure DomainDetails where
  domain : String
  active : Option JVal
  aliases : Option JVal
  defquota : Option JVal
  mailboxes : Option JVal
  maxquota : Option JVal
  quota : Option JVal
deriving DecidableEq

/-- The field assignments of `addDomain` (lines 232–237): each listed field is
replaced by the vendor default when `typeof` it is `undefined`. -/
def applyDomainDefaults (d : DomainDetails) : DomainDetails :=
  { d with
    active := some (d.active.getD (.num 1))
    aliases := some (d.aliases.getD (.num 400))
    defquota := some (d.defquota.getD (.num 3072))
    mailboxes := some (d.mailboxes.getD (.num 10))
    maxquota := some (d.maxquota.getD (.num 10240))
    quota := some (d.quota.getD (.num 10240)) }

/-- `addMailbox(mailboxDetails)`.  The caller's record lives at reference `r`
in the heap `heap`; the method mutates it in place (the returned heap) and
passes the same object as the request body (`ReqBody.mailboxRef r`).  Returns
(final heap, event trace, result). -/
def addMailbox (base : String) (hdr : Headers) (heap : List MailboxDetails)
    (r : Nat) (w : WhoisResult) (t : Nat → Outcome) :
    List MailboxDetails × List Event × Except JSError (Option String) :=
  match heap[r]? with
  | none => (heap, [], .error (.typeError "undefined has no property domain"))
  | some m =>
    if !domainMatch m.domain then
      (heap, [], .error (.error "Invalid domain name format"))
    else
      let chk := checkAvailable m.domain w
      match chk.2 with
      | .error e => (heap, chk.1, .error e)
      | .ok avail =>
        if !avail then
          (heap, chk.1,
            .error (.error "The domain provided was not registered on the WHOIS database."))
        else
          let heap2 := heap.set r (applyMailboxDefaults m)
          let cfg : Config :=
            { url := base ++ "/api/v1/add/mailbox", method := "post",
              headers := hdr, data := some (.mailboxRef r) }
          let res := request cfg t
          (heap2, chk.1 ++ res.1.map .http, res.2)

/-- `addDomain(domain)`.  Same shape as `addMailbox`: the record at reference
`r` is validated, gated on WHOIS, mutated in place with defaults and passed by
reference as the request body. -/
def addDomain (base : String) (hdr : Headers) (heap : List DomainDetails)
    (r : Nat) (w : WhoisResult) (t : Nat → Outcome) :
    List DomainDetails × List Event × Except JSError (Option String) :=
  match heap[r]? with
  | none => (heap, [], .error (.typeError "undefined has no property domain"))
  | some d =>
    if !domainMatch d.domain then
      (heap, [], .error (.error "domain name is invalid"))
    else
      let chk := checkAvailable d.domain w
      match chk.2 with
      | .error e => (heap, chk.1, .error e)
      | .ok avail =>
        if !avail then
          (heap, chk.1,
            .error (.error "The domain provided was not registered on the WHOIS database."))
        else
          let heap2 := heap.set r (applyDomainDefaults d)
          let cfg : Config :=
            { url := base ++ "/api/v1/add/domain", method := "post",
              headers := hdr, data := some (.domainRef r) }
          let res := request cfg t
          (heap2, chk.1 ++ res.1.map .http, res.2)

/-- `deleteMailbox(mailboxes)`: POST `/api/v1/delete/mailbox` with body
`{items: mailboxes}`. -/
def deleteMailbox (base : String) (hdr : Headers) (xs : List String)
    (t : Nat → Outcome) : List Event × Except JSError (Option String) :=
  let res := request
    { url := base ++ "/api/v1/delete/mailbox", method := "post",
      headers := hdr, data := some (.items xs) } t
  (res.1.map .http, res.2)

/-- `deleteDomain(domains)`: POST `/api/v1/delete/domain` with body
`{items: domains}`. -/
def deleteDomain (base : String) (hdr : Headers) (xs : List String)
    (t : Nat → Outcome) : List Event × Except JSError (Option String) :=
  let res := request
    { url := base ++ "/api/v1/delete/domain", method := "post",
      headers := hdr, data := some (.items xs) } t
  (res.1.map .http, res.2)

/-- `deleteAlias(aliases)`: POST `/api/v1/delete/alias` with body
`{items: aliases}`. -/
def deleteAlias (base : String) (hdr : Headers) (xs : List String)
    (t : Nat → Outcome) : List Event × Except JSError (Option String) :=
  let res := request
    { url := base ++ "/api/v1/delete/alias", method := "post",
      headers := hdr, data := some (.items xs) } t
  (res.1.map .http, res.2)

/-- `deleteSyncJob(syncJobs)`: POST `/api/v1/delete/syncjob` with body
`{items: syncJobs}`. -/
def deleteSyncJob (base : String) (hdr : Headers) (xs : List String)
    (t : Nat → Outcome) : List Event × Except JSError (Option String) :=
  let res := request
    { url := base ++ "/api/v1/delete/syncjob", method := "post",
      headers := hdr, data := some (.items xs) } t
  (res.1.map .http, res.2)

/-- `deleteForwardingHost(fwdHosts)`: POST `/api/v1/delete/fwdhost` with body
`{items: fwdHosts}`. -/
def deleteForwardingHost (base : String) (hdr : Headers) (xs : List String)
    (t : Nat → Outcome) : List Event × Except JSError (Option String) :=
  let res := request
    { url := base ++ "/api/v1/delete/fwdhost", method := "post",
      headers := hdr, data := some (.items xs) } t
  (res.1.map .http, res.2)

/-- `addAlias(aliasDetails)`: POST `/api/v1/add/alias`. -/
def addAlias (base : String) (hdr : Headers) (v : JVal) (t : Nat → Outcome) :
    List Event × Except JSError (Option String) :=
  let res := request
    { url := base ++ "/api/v1/add/alias", method := "post",
      headers := hdr, data := some (.value v) } t
  (res.1.map .http, res.2)

/-- `addSyncJob(syncJobDetails)`: POST `/api/v1/add/syncjob`. -/
def addSyncJob (base : String) (hdr : Headers) (v : JVal) (t : Nat → Outcome) :
    List Event × Except JSError (Option String) :=
  let res := request
    { url := base ++ "/api/v1/add/syncjob", method := "post",
      headers := hdr, data := some (.value v) } t
  (res.1.map .http, res.2)

/-- `addForwardingHost(fwdHostDetails)`: POST `/api/v1/add/fwdhost`. -/
def addForwardingHost (base : String) (hdr : Headers) (v : JVal)
    (t : Nat → Outcome) : List Event × Except JSError (Option String) :=
  let res := request
    { url := base ++ "/api/v1/add/fwdhost", method := "post",
      headers := hdr, data := some (.value v) } t
  (res.1.map .http, res.2)

/-- `getUserMailBox(user)`: GET `/api/v1/get/mailbox/{user}`. -/
def getUserMailBox (base : String) (hdr : Headers) (user : String)
    (t : Nat → Outcome) : List Event × Except JSError (Option String) :=
  let res := request
    { url := base ++ "/api/v1/get/mailbox/" ++ user, method := "get",
      headers := hdr, data := none } t
  (res.1.map .http, res.2)

/-- `listMailboxes()`: GET `/api/v1/get/mailbox/all`. -/
def listMailboxes (base : String) (hdr : Headers) (t : Nat → Outcome) :
    List Event × Except JSError (Option String) :=
  let res := request
    { url := base ++ "/api/v1/get/mailbox/all", method := "get",
      headers := hdr, data := none } t
  (res.1.map .http, res.2)

/-- `getDomain(domain)`: GET `/api/v1/get/domain/{domain}`. -/
def getDomain (base : String) (hdr : Headers) (domain : String)
    (t : Nat → Outcome) : List Event × Except JSError (Option String) :=
  let res := request
    { url := base ++ "/api/v1/get/domain/" ++ domain, method := "get",
      headers := hdr, data := none } t
  (res.1.map .http, res.2)

/-- The descriptor `getLogs(type)` builds: GET `/api/v1/get/logs/{type}` —
the log category is the final path segment and no other parameter exists. -/
def getLogsConfig (base : String) (hdr : Headers) (type : String) : Config :=
  { url := base ++ "/api/v1/get/logs/" ++ type, method := "get",
    headers := hdr, data := none }

/-- The default value of `getLogs`'s single parameter (`type = 'sogo'`). -/
def getLogsDefaultType : String := "sogo"

/-- `getLogs(type = 'sogo')`: issues the single GET of `getLogsConfig`. -/
def getLogs (base : String) (hdr : Headers) (type : String)
    (t : Nat → Outcome) : List Event × Except JSError (Option String) :=
  let res := request (getLogsConfig base hdr type) t
  (res.1.map .http, res.2)

/-- The constructed client: the stored base url and the fixed header set. -/
structure Client where
  baseurl : String
  headers : Headers
deriving DecidableEq

/-- The credential pair of the constructor's options object (`none` = the key
is absent). -/
structure Options where
  readOnlyKey : Option String
  writeKey : Option String
deriving DecidableEq

/-- JS truthiness of an optional string (absent and empty are falsy). -/
def optTruthy : Option String → Bool
  | none => false
  | some s => !s.isEmpty

/-- The constructor.  `isURLf` abstracts the `isUrl` helper — modelled from
the spec: the `utils/isUrl` module is not among the sources, the spec says
only that construction fails when the base url is "absent/malformed", so the
url test is a boolean predicate parameter.  The constructor throws on a falsy
or non-url base url, then on a missing/empty credential, performing no lookup
and no HTTP request; otherwise it stores the base url and builds the fixed
headers from the write key.  (The `mergeDefault` call on the options cannot
flip these checks: its defaults for required keys are `null`, itself falsy,
and its own throw is swallowed into a promise.) -/
def mailcowNew (baseurl : Option String) (isURLf : String → Bool)
    (o : Options) : Except JSError Client :=
  if !optTruthy baseurl || !isURLf (baseurl.getD "") then
    .error (.error "Please provide a baseurl, can be found by going to https://mail.yourdomain.org/ with a mailcow installation.")
  else if !optTruthy o.readOnlyKey || !optTruthy o.writeKey then
    .error (.error "Please provide both a Read And Write API key to use with this wrapper can be found on your mailcow Admin Panel.")
  else
    .ok { baseurl := baseurl.getD "",
          headers := { xApiKey := o.writeKey.getD "",
                       contentType := "application/json" } }

/-- The methods defined on the `Mailcow` class, in source order. -/
def clientMethodNames : List String :=
  ["constructor", "request", "retryRequest", "getUserMailBox",
   "listMailboxes", "addMailbox", "deleteMailbox", "getDomain", "addDomain",
   "deleteDomain", "addAlias", "deleteAlias", "addSyncJob", "deleteSyncJob",
   "addForwardingHost", "deleteForwardingHost", "getLogs", "checkAvailable",
   "mergeDefault"]

/-! ### Helper lemmas -/

/-- One-step unfolding of the retry loop. -/
theorem retryLoop_succ (cfg : Config) (t : Nat → Outcome) (i fuel : Nat) :
    retryLoop cfg t i (fuel + 1) =
      match t i with
      | .success b => ([cfg], .ok (some b))
      | .failure e =>
        if fuel = 0 then ([cfg], .error (.axios e))
        else (cfg :: (retryLoop cfg t (i + 1) fuel).1,
              (retryLoop cfg t (i + 1) fuel).2) := rfl

/-- Every descriptor in a `retryLoop` trace is the one passed in. -/
theorem retryLoop_trace_mem (cfg : Config) (t : Nat → Outcome) :
    ∀ fuel i x, x ∈ (retryLoop cfg t i fuel).1 → x = cfg := by
  intro fuel
  induction fuel with
  | zero => intro i x hx; simp [retryLoop] at hx
  | succ n ih =>
    intro i x hx
    simp only [retryLoop] at hx
    cases ht : t i with
    | success b => rw [ht] at hx; simp at hx; exact hx
    | failure e =>
      rw [ht] at hx
      by_cases hn : n = 0
      · simp [hn] at hx; exact hx
      · simp [hn] at hx
        rcases hx with hx | hx
        · exact hx
        · exact ih (i + 1) x hx

/-- Every descriptor in a `request` trace is the one passed in. -/
theorem request_trace_mem (cfg : Config) (t : Nat → Outcome) (x : Config)
    (hx : x ∈ (request cfg t).1) : x = cfg := by
  simp only [request] at hx
  cases ht : t 0 with
  | success b => rw [ht] at hx; simp at hx; exact hx
  | failure e =>
    rw [ht] at hx
    by_cases h5 : is5xx e
    · simp [h5] at hx
      rcases hx with hx | hx
      · exact hx
      · exact retryLoop_trace_mem cfg _ 3 0 x hx
    · simp [h5] at hx; exact hx

/-- `request` always performs at least one attempt. -/
theorem request_trace_ne_nil (cfg : Config) (t : Nat → Outcome) :
    (request cfg t).1 ≠ [] := by
  simp only [request]
  cases ht : t 0 with
  | success b => simp
  | failure e =>
    by_cases h5 : is5xx e <;> simp [h5]

/-- A matching domain string is nonempty. -/
theorem domainMatch_not_empty (s : String) (h : domainMatch s = true) :
    s.isEmpty = false := by
  by_contra hne
  have he : s.isEmpty = true := by
    cases hv : s.isEmpty
    · exact absurd hv hne
    · rfl
  have : s = "" := (String.isEmpty_iff s).mp he
  subst this
  exact absurd h (by decide)

/-- When the domain is nonempty and the lookup returns the disclaimer,
`checkAvailable` performs the lookup and returns `true`. -/
theorem checkAvailable_ok (s : String) (w : WhoisResult)
    (hs : s.isEmpty = false) (hw : whoisOk w = true) :
    checkAvailable s w = ([.whoisLookup s], .ok true) := by
  cases w with
  | failure msg => simp [whoisOk] at hw
  | response pir =>
    cases pir with
    | none => simp [whoisOk] at hw
    | some ts =>
      simp only [whoisOk] at hw
      simp [checkAvailable, hs, hw]

/-- When the domain is nonempty and the lookup does not return the
disclaimer, `checkAvailable` performs the lookup and either throws (rejected
lookup, missing registry entry) or returns `false`. -/
theorem checkAvailable_not_ok (s : String) (w : WhoisResult)
    (hs : s.isEmpty = false) (hw : whoisOk w = false) :
    (checkAvailable s w).1 = [.whoisLookup s] ∧
      ((∃ e, (checkAvailable s w).2 = .error e) ∨
        (checkAvailable s w).2 = .ok false) := by
  cases w with
  | failure msg =>
    exact ⟨by simp [checkAvailable, hs],
      .inl ⟨.whoisError msg, by simp [checkAvailable, hs]⟩⟩
  | response pir =>
    cases pir with
    | none =>
      exact ⟨by simp [checkAvailable, hs],
        .inl ⟨.typeError "undefined has no property text", by simp [checkAvailable, hs]⟩⟩
    | some ts =>
      simp only [whoisOk] at hw
      exact ⟨by simp [checkAvailable, hs], .inr (by simp [checkAvailable, hs, hw])⟩

/-- All-5xx transports: `retryLoop` uses every remaining iteration and throws
the error of the last attempt. -/
theorem retryLoop_all_fail (cfg : Config) (t : Nat → Outcome)
    (hall : ∀ j, failed5xx (t j) = true) :
    ∀ fuel i e, t (i + fuel) = .failure e →
      retryLoop cfg t i (fuel + 1) = (List.replicate (fuel + 1) cfg, .error (.axios e)) := by
  intro fuel
  induction fuel with
  | zero =>
    intro i e hlast
    rw [Nat.add_zero] at hlast
    rw [retryLoop_succ, hlast]
    simp [List.replicate]
  | succ n ih =>
    intro i e hlast
    have hi := hall i
    cases ht : t i with
    | success b => rw [ht] at hi; simp [failed5xx] at hi
    | failure e0 =>
      have hrest := ih (i + 1) e
        (by rw [show i + 1 + n = i + (n + 1) from by omega]; exact hlast)
      rw [retryLoop_succ, ht]
      simp only [Nat.succ_ne_zero, if_false, hrest]
      simp [List.replicate_succ]

/-! ### Claim theorems -/

/-- C1, counterexample: with a transport answering 500 on every attempt, a
call does **not** make exactly 3 attempts in total (it makes 4: the initial
attempt of `request` plus the 3 attempts of `retryRequest`). -/
theorem c1_counterexample :
    ¬ ((request ⟨"https://h/api/v1/get/mailbox/all", "get",
          ⟨"k", "application/json"⟩, none⟩
        (fun _ => .failure ⟨some 500, "Internal Server Error"⟩)).1.length = 3) := by
  decide

/-- C1 (amended): for every request whose transport returns a status ≥ 500 on
every attempt, the call exhausts exactly 4 attempts total — the initial
attempt plus 3 retries — each with the identical request descriptor, and then
raises the transport error of the last attempt. -/
theorem c1_retry_exhausts_four_attempts (cfg : Config) (t : Nat → Outcome)
    (e : AxiosError) (hall : ∀ j, failed5xx (t j) = true)
    (hlast : t 3 = .failure e) :
    request cfg t = ([cfg, cfg, cfg, cfg], .error (.axios e)) := by
  have h0 := hall 0
  cases ht : t 0 with
  | success b => rw [ht] at h0; simp [failed5xx] at h0
  | failure e0 =>
    rw [ht] at h0
    simp only [failed5xx] at h0
    have hloop := retryLoop_all_fail cfg (fun i => t (i + 1))
      (fun j => hall (j + 1)) 2 0 e (by simpa using hlast)
    have hloop3 : retryLoop cfg (fun i => t (i + 1)) 0 3 =
        (List.replicate 3 cfg, .error (.axios e)) := hloop
    simp only [request, ht, h0, if_true, retryRequest]
    rw [hloop3]
    rfl

/-- C1 witness: a concrete all-500 transport makes 4 identical attempts and
raises the last error. -/
theorem c1_witness :
    request ⟨"https://h/api/v1/get/mailbox/all", "get",
        ⟨"k", "application/json"⟩, none⟩
      (fun _ => .failure ⟨some 500, "Internal Server Error"⟩) =
      ([⟨"https://h/api/v1/get/mailbox/all", "get", ⟨"k", "application/json"⟩, none⟩,
        ⟨"https://h/api/v1/get/mailbox/all", "get", ⟨"k", "application/json"⟩, none⟩,
        ⟨"https://h/api/v1/get/mailbox/all", "get", ⟨"k", "application/json"⟩, none⟩,
        ⟨"https://h/api/v1/get/mailbox/all", "get", ⟨"k", "application/json"⟩, none⟩],
       .error (.axios ⟨some 500, "Internal Server Error"⟩)) :=
  c1_retry_exhausts_four_attempts _ _ _ (fun _ => rfl) rfl

/-- C7: if the transport returns a status ≥ 500 on the first attempt and a
2xx response on the next, the call returns the decoded body of that response
(the retry path recovers, no error is raised). -/
theorem c7_retry_recovers (cfg : Config) (t : Nat → Outcome) (b : String)
    (h0 : failed5xx (t 0) = true) (h1 : t 1 = .success b) :
    request cfg t = ([cfg, cfg], .ok (some b)) := by
  cases ht : t 0 with
  | success b0 => rw [ht] at h0; simp [failed5xx] at h0
  | failure e0 =>
    rw [ht] at h0
    simp only [failed5xx] at h0
    have hloop : retryLoop cfg (fun i => t (i + 1)) 0 3 = ([cfg], .ok (some b)) := by
      have h3 : retryLoop cfg (fun i => t (i + 1)) 0 3 =
          retryLoop cfg (fun i => t (i + 1)) 0 (2 + 1) := rfl
      rw [h3, retryLoop_succ]
      simp [h1]
    simp only [request, ht, h0, if_true, retryRequest]
    rw [hloop]

/-- C7 witness: a concrete 503-then-200 transport returns the 200 body. -/
theorem c7_witness :
    request ⟨"https://h/api/v1/get/domain/all", "get",
        ⟨"k", "application/json"⟩, none⟩
      (fun i => if i = 0 then .failure ⟨some 503, "Service Unavailable"⟩
                else .success "body") =
      ([⟨"https://h/api/v1/get/domain/all", "get", ⟨"k", "application/json"⟩, none⟩,
        ⟨"https://h/api/v1/get/domain/all", "get", ⟨"k", "application/json"⟩, none⟩],
       .ok (some "body")) :=
  c7_retry_recovers _ _ _ rfl rfl

/-- C2, counterexample: when the WHOIS lookup itself fails, `addMailbox` does
not fail with the registration error — the lookup's own error propagates
instead (creation is still blocked). -/
theorem c2_counterexample :
    (addMailbox "https://h" ⟨"k", "application/json"⟩
        [⟨"example.org", none, none, none, none, none, none⟩] 0
        (.failure "lookup failed") (fun _ => .success "ok")).2.2 =
      .error (.whoisError "lookup failed") ∧
    ¬ ((addMailbox "https://h" ⟨"k", "application/json"⟩
        [⟨"example.org", none, none, none, none, none, none⟩] 0
        (.failure "lookup failed") (fun _ => .success "ok")).2.2 =
      .error (.error "The domain provided was not registered on the WHOIS database.")) := by
  constructor
  · decide
  · decide

/-- C2 (amended): for every record whose WHOIS lookup does not return the
expected registry disclaimer, `addMailbox` and `addDomain` fail with an error
— the registration error when the lookup succeeds with different text, the
lookup's own error (or a TypeError for a missing registry entry) when it does
not — and in every such case no create (POST) request is issued. -/
theorem c2_whois_gate_blocks_create (base : String) (hdr : Headers)
    (heapM : List MailboxDetails) (rM : Nat) (m : MailboxDetails)
    (heapD : List DomainDetails) (rD : Nat) (d : DomainDetails)
    (w : WhoisResult) (t : Nat → Outcome) :
    (heapM[rM]? = some m → domainMatch m.domain = true → whoisOk w = false →
      (∃ e, (addMailbox base hdr heapM rM w t).2.2 = .error e) ∧
      ∀ cfg', Event.http cfg' ∉ (addMailbox base hdr heapM rM w t).2.1) ∧
    (heapD[rD]? = some d → domainMatch d.domain = true → whoisOk w = false →
      (∃ e, (addDomain base hdr heapD rD w t).2.2 = .error e) ∧
      ∀ cfg', Event.http cfg' ∉ (addDomain base hdr heapD rD w t).2.1) := by
  constructor
  · intro hm hdm hw
    have hne := domainMatch_not_empty _ hdm
    obtain ⟨hev, hres⟩ := checkAvailable_not_ok m.domain w hne hw
    rcases hres with ⟨e, he⟩ | hfalse
    · simp only [addMailbox, hm, hdm, Bool.not_true, Bool.false_eq_true,
        if_false, he]
      exact ⟨⟨e, rfl⟩, by rw [hev]; intro cfg' hc; simp at hc⟩
    · simp only [addMailbox, hm, hdm, Bool.not_true, Bool.false_eq_true,
        if_false, hfalse, Bool.not_false, if_true]
      exact ⟨⟨_, rfl⟩, by rw [hev]; intro cfg' hc; simp at hc⟩
  · intro hd hdm hw
    have hne := domainMatch_not_empty _ hdm
    obtain ⟨hev, hres⟩ := checkAvailable_not_ok d.domain w hne hw
    rcases hres with ⟨e, he⟩ | hfalse
    · simp only [addDomain, hd, hdm, Bool.not_true, Bool.false_eq_true,
        if_false, he]
      exact ⟨⟨e, rfl⟩, by rw [hev]; intro cfg' hc; simp at hc⟩
    · simp only [addDomain, hd, hdm, Bool.not_true, Bool.false_eq_true,
        if_false, hfalse, Bool.not_false, if_true]
      exact ⟨⟨_, rfl⟩, by rw [hev]; intro cfg' hc; simp at hc⟩

/-- C2 witness: a lookup whose `whois.pir.org` text is empty blocks both
create operations without any HTTP request. -/
theorem c2_witness :
    (∃ e, (addMailbox "https://h" ⟨"k", "application/json"⟩
        [⟨"example.org", none, none, none, none, none, none⟩] 0
        (.response (some [])) (fun _ => .success "ok")).2.2 = .error e) ∧
    Event.http ⟨"https://h/api/v1/add/mailbox", "post",
        ⟨"k", "application/json"⟩, some (.mailboxRef 0)⟩ ∉
      (addMailbox "https://h" ⟨"k", "application/json"⟩
        [⟨"example.org", none, none, none, none, none, none⟩] 0
        (.response (some [])) (fun _ => .success "ok")).2.1 ∧
    (∃ e, (addDomain "https://h" ⟨"k", "application/json"⟩
        [⟨"example.org", none, none, none, none, none, none⟩] 0
        (.response (some [])) (fun _ => .success "ok")).2.2 = .error e) ∧
    Event.http ⟨"https://h/api/v1/add/domain", "post",
        ⟨"k", "application/json"⟩, some (.domainRef 0)⟩ ∉
      (addDomain "https://h" ⟨"k", "application/json"⟩
        [⟨"example.org", none, none, none, none, none, none⟩] 0
        (.response (some [])) (fun _ => .success "ok")).2.1 := by
  obtain ⟨hM, hD⟩ := c2_whois_gate_blocks_create "https://h"
    ⟨"k", "application/json"⟩
    [⟨"example.org", none, none, none, none, none, none⟩] 0
    ⟨"example.org", none, none, none, none, none, none⟩
    [⟨"example.org", none, none, none, none, none, none⟩] 0
    ⟨"example.org", none, none, none, none, none, none⟩
    (.response (some [])) (fun _ => .success "ok")
  obtain ⟨hM1, hM2⟩ := hM rfl (by decide) rfl
  obtain ⟨hD1, hD2⟩ := hD rfl (by decide) rfl
  exact ⟨hM1, hM2 _, hD1, hD2 _⟩

/-- C3: for every record whose domain field does not match the hostname
pattern, `addMailbox` and `addDomain` fail with a validation error and emit no
event at all — no WHOIS lookup and no network call. -/
theorem c3_invalid_domain_no_lookup (base : String) (hdr : Headers)
    (heapM : List MailboxDetails) (rM : Nat) (m : MailboxDetails)
    (heapD : List DomainDetails) (rD : Nat) (d : DomainDetails)
    (w : WhoisResult) (t : Nat → Outcome) :
    (heapM[rM]? = some m → domainMatch m.domain = false →
      addMailbox base hdr heapM rM w t =
        (heapM, [], .error (.error "Invalid domain name format"))) ∧
    (heapD[rD]? = some d → domainMatch d.domain = false →
      addDomain base hdr heapD rD w t =
        (heapD, [], .error (.error "domain name is invalid"))) := by
  constructor
  · intro hm hdm
    simp [addMailbox, hm, hdm]
  · intro hd hdm
    simp [addDomain, hd, hdm]

/-- C3 witness: a domain with no dot is rejected by both operations before
any lookup. -/
theorem c3_witness :
    addMailbox "https://h" ⟨"k", "application/json"⟩
        [⟨"invalid", none, none, none, none, none, none⟩] 0
        (.response (some [])) (fun _ => .success "ok") =
      ([⟨"invalid", none, none, none, none, none, none⟩], [],
        .error (.error "Invalid domain name format")) ∧
    addDomain "https://h" ⟨"k", "application/json"⟩
        [⟨"invalid", none, none, none, none, none, none⟩] 0
        (.response (some [])) (fun _ => .success "ok") =
      ([⟨"invalid", none, none, none, none, none, none⟩], [],
        .error (.error "domain name is invalid")) := by
  obtain ⟨hM, hD⟩ := c3_invalid_domain_no_lookup "https://h"
    ⟨"k", "application/json"⟩
    [⟨"invalid", none, none, none, none, none, none⟩] 0
    ⟨"invalid", none, none, none, none, none, none⟩
    [⟨"invalid", none, none, none, none, none, none⟩] 0
    ⟨"invalid", none, none, none, none, none, none⟩
    (.response (some [])) (fun _ => .success "ok")
  exact ⟨hM rfl (by decide), hD rfl (by decide)⟩

/-- The http-event trace of an operation that issues one `request`: it is
nonempty and every event in it carries the operation's descriptor. -/
theorem mapHttp_request (cfg : Config) (t : Nat → Outcome) :
    (request cfg t).1.map Event.http ≠ [] ∧
    ∀ ev ∈ (request cfg t).1.map Event.http, ev = .http cfg := by
  constructor
  · simp [request_trace_ne_nil]
  · intro ev hev
    simp only [List.mem_map] at hev
    obtain ⟨c, hc, rfl⟩ := hev
    rw [request_trace_mem cfg t c hc]

/-- C4: constructing the client with an absent or malformed base url, or with
either credential absent (or empty), fails with the configuration error — the
constructor performs no lookup and no request (its embedding takes no
transport) — and construction with a valid url and both keys succeeds,
yielding the stored base url and the fixed header set. -/
theorem c4_constructor_validation (isURLf : String → Bool) (b : Option String)
    (o : Options) :
    (optTruthy b = false → ∃ msg, mailcowNew b isURLf o = .error (.error msg)) ∧
    (isURLf (b.getD "") = false →
      ∃ msg, mailcowNew b isURLf o = .error (.error msg)) ∧
    (optTruthy o.readOnlyKey = false →
      ∃ msg, mailcowNew b isURLf o = .error (.error msg)) ∧
    (optTruthy o.writeKey = false →
      ∃ msg, mailcowNew b isURLf o = .error (.error msg)) ∧
    (optTruthy b = true → isURLf (b.getD "") = true →
     optTruthy o.readOnlyKey = true → optTruthy o.writeKey = true →
      mailcowNew b isURLf o =
        .ok ⟨b.getD "", ⟨o.writeKey.getD "", "application/json"⟩⟩) := by
  refine ⟨?_, ?_, ?_, ?_, ?_⟩
  · intro h
    simp only [mailcowNew, h, Bool.not_false, Bool.true_or, if_true]
    exact ⟨_, rfl⟩
  · intro h
    simp only [mailcowNew, h, Bool.not_false, Bool.or_true, if_true]
    exact ⟨_, rfl⟩
  · intro h
    simp only [mailcowNew, h, Bool.not_false, Bool.true_or, if_true]
    by_cases h1 : (!optTruthy b || !isURLf (b.getD "")) = true
    · simp only [h1, if_true]
      exact ⟨_, rfl⟩
    · simp only [Bool.not_eq_true] at h1
      simp only [h1, Bool.false_eq_true, if_false]
      exact ⟨_, rfl⟩
  · intro h
    simp only [mailcowNew, h, Bool.not_false, Bool.or_true, if_true]
    by_cases h1 : (!optTruthy b || !isURLf (b.getD "")) = true
    · simp only [h1, if_true]
      exact ⟨_, rfl⟩
    · simp only [Bool.not_eq_true] at h1
      simp only [h1, Bool.false_eq_true, if_false]
      exact ⟨_, rfl⟩
  · intro h1 h2 h3 h4
    simp [mailcowNew, h1, h2, h3, h4]

/-- C4 witness: a concrete valid construction succeeds and a concrete
construction with a missing read-only key fails. -/
theorem c4_witness :
    mailcowNew (some "https://mail.example.org") (fun s => !s.isEmpty)
        ⟨some "ro-key", some "rw-key"⟩ =
      .ok ⟨"https://mail.example.org", ⟨"rw-key", "application/json"⟩⟩ ∧
    (∃ msg, mailcowNew (some "https://mail.example.org") (fun s => !s.isEmpty)
        ⟨none, some "rw-key"⟩ = .error (.error msg)) := by
  refine ⟨?_, ?_⟩
  · exact (c4_constructor_validation (fun s => !s.isEmpty)
      (some "https://mail.example.org") ⟨some "ro-key", some "rw-key"⟩).2.2.2.2
      rfl rfl rfl rfl
  · exact (c4_constructor_validation (fun s => !s.isEmpty)
      (some "https://mail.example.org") ⟨none, some "rw-key"⟩).2.2.1 rfl

/-- C5: every bulk delete operation sends POSTs to its delete endpoint whose
body is exactly `{items: <the input list>}` — the very list passed in, so
order and duplicates are preserved — and sends at least one such request. -/
theorem c5_bulk_delete_items_verbatim (base : String) (hdr : Headers)
    (xs : List String) (t : Nat → Outcome) :
    ((deleteMailbox base hdr xs t).1 ≠ [] ∧
      ∀ ev ∈ (deleteMailbox base hdr xs t).1,
        ev = .http ⟨base ++ "/api/v1/delete/mailbox", "post", hdr,
          some (.items xs)⟩) ∧
    ((deleteDomain base hdr xs t).1 ≠ [] ∧
      ∀ ev ∈ (deleteDomain base hdr xs t).1,
        ev = .http ⟨base ++ "/api/v1/delete/domain", "post", hdr,
          some (.items xs)⟩) ∧
    ((deleteAlias base hdr xs t).1 ≠ [] ∧
      ∀ ev ∈ (deleteAlias base hdr xs t).1,
        ev = .http ⟨base ++ "/api/v1/delete/alias", "post", hdr,
          some (.items xs)⟩) ∧
    ((deleteSyncJob base hdr xs t).1 ≠ [] ∧
      ∀ ev ∈ (deleteSyncJob base hdr xs t).1,
        ev = .http ⟨base ++ "/api/v1/delete/syncjob", "post", hdr,
          some (.items xs)⟩) ∧
    ((deleteForwardingHost base hdr xs t).1 ≠ [] ∧
      ∀ ev ∈ (deleteForwardingHost base hdr xs t).1,
        ev = .http ⟨base ++ "/api/v1/delete/fwdhost", "post", hdr,
          some (.items xs)⟩) := by
  refine ⟨?_, ?_, ?_, ?_, ?_⟩ <;> exact mapHttp_request _ t

/-- C5 witness: a concrete list with a duplicate is sent verbatim by each of
the five bulk delete operations. -/
theorem c5_witness :
    Event.http ⟨"https://h/api/v1/delete/mailbox", "post",
        ⟨"k", "application/json"⟩, some (.items ["a", "b", "a"])⟩ ∈
      (deleteMailbox "https://h" ⟨"k", "application/json"⟩ ["a", "b", "a"]
        (fun _ => .success "ok")).1 ∧
    Event.http ⟨"https://h/api/v1/delete/domain", "post",
        ⟨"k", "application/json"⟩, some (.items ["a", "b", "a"])⟩ ∈
      (deleteDomain "https://h" ⟨"k", "application/json"⟩ ["a", "b", "a"]
        (fun _ => .success "ok")).1 ∧
    Event.http ⟨"https://h/api/v1/delete/alias", "post",
        ⟨"k", "application/json"⟩, some (.items ["a", "b", "a"])⟩ =
      .http ⟨"https://h" ++ "/api/v1/delete/alias", "post",
        ⟨"k", "application/json"⟩, some (.items ["a", "b", "a"])⟩ ∧
    (deleteSyncJob "https://h" ⟨"k", "application/json"⟩ ["a", "b", "a"]
        (fun _ => .success "ok")).1 ≠ [] ∧
    (deleteForwardingHost "https://h" ⟨"k", "application/json"⟩ ["a", "b", "a"]
        (fun _ => .success "ok")).1 ≠ [] := by
  have h := c5_bulk_delete_items_verbatim "https://h" ⟨"k", "application/json"⟩
    ["a", "b", "a"] (fun _ => .success "ok")
  refine ⟨by decide, by decide, ?_, h.2.2.2.1.1, h.2.2.2.2.1⟩
  exact h.2.2.1.2 _ (by decide)

/-- C6, counterexample: a caller-supplied falsy `tags` value (here `0`) is
**not** sent unchanged by `addMailbox` — `tags = tags || []` replaces it with
the empty array in the record that is sent. -/
theorem c6_counterexample :
    ((addMailbox "https://h" ⟨"k", "application/json"⟩
        [⟨"example.org", none, none, none, none, none, some (.num 0)⟩] 0
        (.response (some [pirDisclaimer])) (fun _ => .success "ok")).1[0]?).map
      MailboxDetails.tags ≠ some (some (.num 0)) ∧
    ((addMailbox "https://h" ⟨"k", "application/json"⟩
        [⟨"example.org", none, none, none, none, none, some (.num 0)⟩] 0
        (.response (some [pirDisclaimer])) (fun _ => .success "ok")).1[0]?).map
      MailboxDetails.tags = some (some (.arr [])) := by
  refine ⟨by decide, by decide⟩

/-- C6 (amended): for records passing validation, `addDomain` fills exactly
the unset fields with `active=1`, `aliases=400`, `defquota=3072`,
`mailboxes=10`, `maxquota=10240`, `quota=10240` and leaves every
caller-supplied field (including zero/false values) unchanged; `addMailbox`
fills unset fields with `active=1`, `quota=3072`, `force_pw_update=1`,
`tls_enforce_in=1`, `tls_enforce_out=1` and leaves those caller-supplied
fields unchanged, but additionally defaults `tags` by truthiness: an unset
**or falsy** caller-supplied `tags` is replaced by the empty array. -/
theorem c6_defaults_applied (m : MailboxDetails) (d : DomainDetails)
    (v : JVal) :
    ((applyMailboxDefaults m).domain = m.domain) ∧
    (m.active = some v → (applyMailboxDefaults m).active = some v) ∧
    (m.active = none → (applyMailboxDefaults m).active = some (.num 1)) ∧
    (m.quota = some v → (applyMailboxDefaults m).quota = some v) ∧
    (m.quota = none → (applyMailboxDefaults m).quota = some (.num 3072)) ∧
    (m.force_pw_update = some v →
      (applyMailboxDefaults m).force_pw_update = some v) ∧
    (m.force_pw_update = none →
      (applyMailboxDefaults m).force_pw_update = some (.num 1)) ∧
    (m.tls_enforce_in = some v →
      (applyMailboxDefaults m).tls_enforce_in = some v) ∧
    (m.tls_enforce_in = none →
      (applyMailboxDefaults m).tls_enforce_in = some (.num 1)) ∧
    (m.tls_enforce_out = some v →
      (applyMailboxDefaults m).tls_enforce_out = some v) ∧
    (m.tls_enforce_out = none →
      (applyMailboxDefaults m).tls_enforce_out = some (.num 1)) ∧
    (m.tags = none → (applyMailboxDefaults m).tags = some (.arr [])) ∧
    (m.tags = some v → truthy v = true →
      (applyMailboxDefaults m).tags = some v) ∧
    (m.tags = some v → truthy v = false →
      (applyMailboxDefaults m).tags = some (.arr [])) ∧
    ((applyDomainDefaults d).domain = d.domain) ∧
    (d.active = some v → (applyDomainDefaults d).active = some v) ∧
    (d.active = none → (applyDomainDefaults d).active = some (.num 1)) ∧
    (d.aliases = some v → (applyDomainDefaults d).aliases = some v) ∧
    (d.aliases = none → (applyDomainDefaults d).aliases = some (.num 400)) ∧
    (d.defquota = some v → (applyDomainDefaults d).defquota = some v) ∧
    (d.defquota = none → (applyDomainDefaults d).defquota = some (.num 3072)) ∧
    (d.mailboxes = some v → (applyDomainDefaults d).mailboxes = some v) ∧
    (d.mailboxes = none → (applyDomainDefaults d).mailboxes = some (.num 10)) ∧
    (d.maxquota = some v → (applyDomainDefaults d).maxquota = some v) ∧
    (d.maxquota = none →
      (applyDomainDefaults d).maxquota = some (.num 10240)) ∧
    (d.quota = some v → (applyDomainDefaults d).quota = some v) ∧
    (d.quota = none → (applyDomainDefaults d).quota = some (.num 10240)) := by
  refine ⟨rfl,
    fun h => by simp [applyMailboxDefaults, h],
    fun h => by simp [applyMailboxDefaults, h],
    fun h => by simp [applyMailboxDefaults, h],
    fun h => by simp [applyMailboxDefaults, h],
    fun h => by simp [applyMailboxDefaults, h],
    fun h => by simp [applyMailboxDefaults, h],
    fun h => by simp [applyMailboxDefaults, h],
    fun h => by simp [applyMailboxDefaults, h],
    fun h => by simp [applyMailboxDefaults, h],
    fun h => by simp [applyMailboxDefaults, h],
    fun h => by simp [applyMailboxDefaults, h],
    fun h ht => by simp [applyMailboxDefaults, h, ht],
    fun h ht => by simp [applyMailboxDefaults, h, ht],
    rfl,
    fun h => by simp [applyDomainDefaults, h],
    fun h => by simp [applyDomainDefaults, h],
    fun h => by simp [applyDomainDefaults, h],
    fun h => by simp [applyDomainDefaults, h],
    fun h => by simp [applyDomainDefaults, h],
    fun h => by simp [applyDomainDefaults, h],
    fun h => by simp [applyDomainDefaults, h],
    fun h => by simp [applyDomainDefaults, h],
    fun h => by simp [applyDomainDefaults, h],
    fun h => by simp [applyDomainDefaults, h],
    fun h => by simp [applyDomainDefaults, h],
    fun h => by simp [applyDomainDefaults, h]⟩

/-- C6 witness: concrete records keep supplied zero values, get vendor
defaults for unset fields, and a falsy supplied `tags` becomes `[]`. -/
theorem c6_witness :
    (applyMailboxDefaults
      ⟨"example.org", some (.num 0), none, none, none, none,
        some (.num 0)⟩).active = some (.num 0) ∧
    (applyMailboxDefaults
      ⟨"example.org", some (.num 0), none, none, none, none,
        some (.num 0)⟩).quota = some (.num 3072) ∧
    (applyMailboxDefaults
      ⟨"example.org", some (.num 0), none, none, none, none,
        some (.num 0)⟩).tags = some (.arr []) ∧
    (applyDomainDefaults
      ⟨"example.org", none, none, none, none, some (.num 0),
        none⟩).maxquota = some (.num 0) ∧
    (applyDomainDefaults
      ⟨"example.org", none, none, none, none, some (.num 0),
        none⟩).quota = some (.num 10240) := by
  obtain ⟨-, hma, -, -, hmq, -, -, -, -, -, -, -, -, hmt,
      -, -, -, -, -, -, -, -, -, hdmx, -, -, hdq⟩ :=
    c6_defaults_applied
      ⟨"example.org", some (.num 0), none, none, none, none, some (.num 0)⟩
      ⟨"example.org", none, none, none, none, some (.num 0), none⟩
      (.num 0)
  exact ⟨hma rfl, hmq rfl, hmt rfl rfl, hdmx rfl, hdq rfl⟩

/-- C8, counterexample: the URL built by `getLogs` for the category `sogo`
does not carry any count as a further path segment — it is not of the form
`/api/v1/get/logs/sogo/{count}` for any count string. -/
theorem c8_counterexample :
    ¬ ∃ count : String,
      (getLogsConfig "https://h" ⟨"k", "application/json"⟩ "sogo").url =
        "https://h/api/v1/get/logs/sogo/" ++ count := by
  rintro ⟨c, hc⟩
  have h1 : (getLogsConfig "https://h" ⟨"k", "application/json"⟩ "sogo").url.length
      = 30 := rfl
  rw [hc, String.length_append] at h1
  have h2 : ("https://h/api/v1/get/logs/sogo/").length = 31 := rfl
  rw [h2] at h1
  omega

/-- C8 (amended): `getLogs` takes only a log category (defaulting to `sogo`)
and issues GET `/api/v1/get/logs/{type}` — the category, not a count, is the
final path segment, and no count parameter exists. -/
theorem c8_get_logs_url (base : String) (hdr : Headers) (type : String)
    (t : Nat → Outcome) :
    getLogsConfig base hdr type =
      ⟨base ++ "/api/v1/get/logs/" ++ type, "get", hdr, none⟩ ∧
    getLogsDefaultType = "sogo" ∧
    (getLogs base hdr type t).1 ≠ [] ∧
    ∀ ev ∈ (getLogs base hdr type t).1,
      ev = .http (getLogsConfig base hdr type) := by
  refine ⟨rfl, rfl, ?_, ?_⟩
  · exact (mapHttp_request _ t).1
  · exact (mapHttp_request _ t).2

/-- C8 witness: the concrete `sogo` request is the single GET of the
category-final URL. -/
theorem c8_witness :
    Event.http (getLogsConfig "https://h" ⟨"k", "application/json"⟩ "sogo") ∈
      (getLogs "https://h" ⟨"k", "application/json"⟩ "sogo"
        (fun _ => .success "ok")).1 ∧
    Event.http (getLogsConfig "https://h" ⟨"k", "application/json"⟩ "sogo") =
      .http (getLogsConfig "https://h" ⟨"k", "application/json"⟩ "sogo") := by
  refine ⟨by decide, ?_⟩
  exact (c8_get_logs_url "https://h" ⟨"k", "application/json"⟩ "sogo"
    (fun _ => .success "ok")).2.2.2 _ (by decide)

/-- C9, counterexample: the class defines no `editSyncJob`, no `listSyncJobs`
and no `listForwardingHosts` method. -/
theorem c9_counterexample :
    ¬ ("editSyncJob" ∈ clientMethodNames ∧
       "listSyncJobs" ∈ clientMethodNames ∧
       "listForwardingHosts" ∈ clientMethodNames) := by
  decide

/-- C9 (amended): the client's surface offers add and bulk-delete operations
for sync jobs and forwarding hosts, but no edit-sync-job, no list-sync-jobs
and no list-forwarding-hosts operation. -/
theorem c9_surface_methods :
    "addSyncJob" ∈ clientMethodNames ∧
    "deleteSyncJob" ∈ clientMethodNames ∧
    "addForwardingHost" ∈ clientMethodNames ∧
    "deleteForwardingHost" ∈ clientMethodNames ∧
    "editSyncJob" ∉ clientMethodNames ∧
    "listSyncJobs" ∉ clientMethodNames ∧
    "listForwardingHosts" ∉ clientMethodNames := by
  decide

/-- The success path of `addMailbox`: record found, pattern ok, WHOIS ok. -/
theorem addMailbox_success_path (base : String) (hdr : Headers)
    (heapM : List MailboxDetails) (rM : Nat) (m : MailboxDetails)
    (w : WhoisResult) (t : Nat → Outcome)
    (hm : heapM[rM]? = some m) (hdm : domainMatch m.domain = true)
    (hw : whoisOk w = true) :
    addMailbox base hdr heapM rM w t =
      (heapM.set rM (applyMailboxDefaults m),
       .whoisLookup m.domain ::
         (request ⟨base ++ "/api/v1/add/mailbox", "post", hdr,
            some (.mailboxRef rM)⟩ t).1.map .http,
       (request ⟨base ++ "/api/v1/add/mailbox", "post", hdr,
          some (.mailboxRef rM)⟩ t).2) := by
  have hne := domainMatch_not_empty _ hdm
  have hca := checkAvailable_ok m.domain w hne hw
  simp [addMailbox, hm, hdm, hca]

/-- The success path of `addDomain`: record found, pattern ok, WHOIS ok. -/
theorem addDomain_success_path (base : String) (hdr : Headers)
    (heapD : List DomainDetails) (rD : Nat) (d : DomainDetails)
    (w : WhoisResult) (t : Nat → Outcome)
    (hd : heapD[rD]? = some d) (hdm : domainMatch d.domain = true)
    (hw : whoisOk w = true) :
    addDomain base hdr heapD rD w t =
      (heapD.set rD (applyDomainDefaults d),
       .whoisLookup d.domain ::
         (request ⟨base ++ "/api/v1/add/domain", "post", hdr,
            some (.domainRef rD)⟩ t).1.map .http,
       (request ⟨base ++ "/api/v1/add/domain", "post", hdr,
          some (.domainRef rD)⟩ t).2) := by
  have hne := domainMatch_not_empty _ hdm
  have hca := checkAvailable_ok d.domain w hne hw
  simp [addDomain, hd, hdm, hca]

/-- C10: `addMailbox` and `addDomain` mutate the caller's record in place —
after a call that passes validation and the WHOIS gate, the heap cell the
caller holds contains the defaults-filled record, a create request is issued,
and the body of every issued request is the reference to that very cell (the
argument object and the request body are the same object). -/
theorem c10_in_place_defaults (base : String) (hdr : Headers)
    (heapM : List MailboxDetails) (rM : Nat) (m : MailboxDetails)
    (heapD : List DomainDetails) (rD : Nat) (d : DomainDetails)
    (w : WhoisResult) (t : Nat → Outcome) :
    (heapM[rM]? = some m → domainMatch m.domain = true → whoisOk w = true →
      (addMailbox base hdr heapM rM w t).1[rM]? =
        some (applyMailboxDefaults m) ∧
      (∃ cfg', Event.http cfg' ∈ (addMailbox base hdr heapM rM w t).2.1) ∧
      ∀ cfg', Event.http cfg' ∈ (addMailbox base hdr heapM rM w t).2.1 →
        cfg'.data = some (.mailboxRef rM)) ∧
    (heapD[rD]? = some d → domainMatch d.domain = true → whoisOk w = true →
      (addDomain base hdr heapD rD w t).1[rD]? =
        some (applyDomainDefaults d) ∧
      (∃ cfg', Event.http cfg' ∈ (addDomain base hdr heapD rD w t).2.1) ∧
      ∀ cfg', Event.http cfg' ∈ (addDomain base hdr heapD rD w t).2.1 →
        cfg'.data = some (.domainRef rD)) := by
  constructor
  · intro hm hdm hw
    obtain ⟨hr, -⟩ := List.getElem?_eq_some.mp hm
    rw [addMailbox_success_path base hdr heapM rM m w t hm hdm hw]
    refine ⟨List.getElem?_set_eq_of_lt _ hr, ?_, ?_⟩
    · obtain ⟨c, hc⟩ := List.exists_mem_of_ne_nil _ (request_trace_ne_nil
        ⟨base ++ "/api/v1/add/mailbox", "post", hdr, some (.mailboxRef rM)⟩ t)
      exact ⟨c, by
        simp only [List.mem_cons]
        exact .inr (List.mem_map_of_mem Event.http hc)⟩
    · intro cfg' hc
      simp only [List.mem_cons] at hc
      rcases hc with hc | hc
      · exact absurd hc (by simp)
      · simp only [List.mem_map] at hc
        obtain ⟨c, hcm, hceq⟩ := hc
        have := request_trace_mem _ t c hcm
        subst this
        cases hceq
        rfl
  · intro hd hdm hw
    obtain ⟨hr, -⟩ := List.getElem?_eq_some.mp hd
    rw [addDomain_success_path base hdr heapD rD d w t hd hdm hw]
    refine ⟨List.getElem?_set_eq_of_lt _ hr, ?_, ?_⟩
    · obtain ⟨c, hc⟩ := List.exists_mem_of_ne_nil _ (request_trace_ne_nil
        ⟨base ++ "/api/v1/add/domain", "post", hdr, some (.domainRef rD)⟩ t)
      exact ⟨c, by
        simp only [List.mem_cons]
        exact .inr (List.mem_map_of_mem Event.http hc)⟩
    · intro cfg' hc
      simp only [List.mem_cons] at hc
      rcases hc with hc | hc
      · exact absurd hc (by simp)
      · simp only [List.mem_map] at hc
        obtain ⟨c, hcm, hceq⟩ := hc
        have := request_trace_mem _ t c hcm
        subst this
        cases hceq
        rfl

/-- C10 witness: a concrete call leaves the defaults-filled record in the
caller's cell and sends the reference to that cell as the body. -/
theorem c10_witness :
    (addMailbox "https://h" ⟨"k", "application/json"⟩
        [⟨"example.org", none, none, none, none, none, none⟩] 0
        (.response (some [pirDisclaimer])) (fun _ => .success "ok")).1[0]? =
      some (applyMailboxDefaults
        ⟨"example.org", none, none, none, none, none, none⟩) ∧
    (∃ cfg', Event.http cfg' ∈
      (addMailbox "https://h" ⟨"k", "application/json"⟩
        [⟨"example.org", none, none, none, none, none, none⟩] 0
        (.response (some [pirDisclaimer])) (fun _ => .success "ok")).2.1) ∧
    (addDomain "https://h" ⟨"k", "application/json"⟩
        [⟨"example.org", none, none, none, none, none, none⟩] 0
        (.response (some [pirDisclaimer])) (fun _ => .success "ok")).1[0]? =
      some (applyDomainDefaults
        ⟨"example.org", none, none, none, none, none, none⟩) := by
  obtain ⟨hM, hD⟩ := c10_in_place_defaults "https://h"
    ⟨"k", "application/json"⟩
    [⟨"example.org", none, none, none, none, none, none⟩] 0
    ⟨"example.org", none, none, none, none, none, none⟩
    [⟨"example.org", none, none, none, none, none, none⟩] 0
    ⟨"example.org", none, none, none, none, none, none⟩
    (.response (some [pirDisclaimer])) (fun _ => .success "ok")
  obtain ⟨hM1, hM2, -⟩ := hM rfl (by decide) (by decide)
  obtain ⟨hD1, -, -⟩ := hD rfl (by decide) (by decide)
  exact ⟨hM1, hM2, hD1⟩

end Mailcow
